import Mathlib

/-!
Shallow embedding of the zrive-ds repository (two scripts):
pipeline A, `src/module_1/module_1_meteo_api.py` (weather fetch with retry,
resample-aggregate, plot); pipeline B, `src/module_3/filter_feature_frame.py`
(per-user frequency filter).  Machine floats are modelled as exact rationals;
HTTP traffic is modelled by an environment function giving each attempt's
outcome, and the embedded `call_api` records its result, the number of
requests issued, and the list of sleep durations in order.
-/

/-- Outcome of one HTTP request: a response with a status code and a body,
or a network-level error (`requests.exceptions.RequestException`). -/
inductive Outcome (α : Type) where
  | resp (code : Nat) (body : α)
  | netErr
deriving DecidableEq

/-- What an embedded `call_api` run produces: the returned value (`none` for
Python `None`), how many HTTP requests were issued, and the sleep durations
performed, in order. -/
structure CallResult (α : Type) where
  result : Option α
  attempts : Nat
  waits : List Nat
deriving DecidableEq

/-- An outcome on which the `call_api` loop continues retrying:
HTTP 429 or a network-level error. -/
def retryable {α : Type} : Outcome α → Bool
  | Outcome.resp code _ => code == 429
  | Outcome.netErr => true

/-- The retry loop body of `call_api` (module_1_meteo_api.py, lines 39-63):
`for attempt in range(max_retries)`.  On status 200 return the body; on 429
sleep `2 ** attempt` and continue; on any other status return `None` at once;
on a network error sleep `2 ** attempt` only when `attempt < max_retries - 1`,
then continue.  `fuel` is the number of loop iterations left. -/
def callApiGo {α : Type} (env : Nat → Outcome α) (max_retries : Nat) :
    Nat → Nat → CallResult α
  | _, 0 => ⟨none, 0, []⟩
  | attempt, fuel + 1 =>
    match env attempt with
    | Outcome.resp code body =>
      if code = 200 then ⟨some body, 1, []⟩
      else if code = 429 then
        let r := callApiGo env max_retries (attempt + 1) fuel
        ⟨r.result, r.attempts + 1, 2 ^ attempt :: r.waits⟩
      else ⟨none, 1, []⟩
    | Outcome.netErr =>
      if attempt < max_retries - 1 then
        let r := callApiGo env max_retries (attempt + 1) fuel
        ⟨r.result, r.attempts + 1, 2 ^ attempt :: r.waits⟩
      else
        let r := callApiGo env max_retries (attempt + 1) fuel
        ⟨r.result, r.attempts + 1, r.waits⟩

/-- `call_api(url, params, max_retries)`: the URL and query parameters are
absorbed into the environment `env`, which tells what request number `i`
returns.  Falling out of the loop returns `None`. -/
def call_api {α : Type} (env : Nat → Outcome α) (max_retries : Nat) :
    CallResult α :=
  callApiGo env max_retries 0 max_retries

/-- A calendar date as carried in the `time` column. -/
structure Date where
  year : Nat
  month : Nat
  day : Nat
deriving DecidableEq

/-- One row of the weather DataFrame: a day's observations plus a city label.
Values are exact rationals standing for the script's floats. -/
structure WRow where
  time : Date
  temperature_2m_mean : ℚ
  precipitation_sum : ℚ
  wind_speed_10m_max : ℚ
  city : String
deriving DecidableEq

/-- The `daily` block of a successful API response: column-oriented series. -/
structure DailyBlock where
  time : List String
  temperature_2m_mean : List ℚ
  precipitation_sum : List ℚ
  wind_speed_10m_max : List ℚ
deriving DecidableEq

/-- A parsed JSON payload as tested by `if data and "daily" in data`:
its Python truthiness, and the `daily` member when the key is present. -/
structure Json where
  truthy : Bool
  daily : Option DailyBlock
deriving DecidableEq

/-- Query parameters built by `get_data_meteo_api`. -/
structure Params where
  latitude : ℚ
  longitude : ℚ
  start_date : String
  end_date : String
  daily : String
  timezone : String
deriving DecidableEq

/-- The fixed city registry `COORDINATES`. -/
def COORDINATES : List (String × ℚ × ℚ) :=
  [("Madrid", 40.416775, -3.703790),
   ("London", 51.507351, -0.127758),
   ("Rio", -22.906847, -43.172896)]

/-- The fixed variable list `VARIABLES`. -/
def VARIABLES : List String :=
  ["temperature_2m_mean", "precipitation_sum", "wind_speed_10m_max"]

/-- `pd.to_datetime` on an ISO `YYYY-MM-DD` string, as far as the scripts
need it. -/
def parseDate (s : String) : Date :=
  match (s.splitOn "-").map (fun t => t.toNat?.getD 0) with
  | [y, m, d] => ⟨y, m, d⟩
  | _ => ⟨0, 0, 0⟩

/-- `pd.DataFrame(data["daily"])` followed by the time parse and the appended
city column: one row per index of the `time` series. -/
def dailyToRows (b : DailyBlock) (city : String) : List WRow :=
  (List.range b.time.length).map (fun i =>
    { time := parseDate (b.time.getD i "")
      temperature_2m_mean := b.temperature_2m_mean.getD i 0
      precipitation_sum := b.precipitation_sum.getD i 0
      wind_speed_10m_max := b.wind_speed_10m_max.getD i 0
      city := city })

/-- `get_data_meteo_api(city, start_date, end_date)` (lines 68-120): validate
the city against `COORDINATES`, build the query parameters, delegate to
`call_api`, and on a truthy payload carrying `"daily"` convert it to rows.
Returns the optional DataFrame together with the number of HTTP requests
issued, so that "no network call" is observable. -/
def get_data_meteo_api (env : Params → Nat → Outcome Json)
    (city start_date end_date : String) : Option (List WRow) × Nat :=
  match COORDINATES.lookup city with
  | none => (none, 0)
  | some (lat, lon) =>
    let params : Params :=
      { latitude := lat
        longitude := lon
        start_date := start_date
        end_date := end_date
        daily := String.intercalate "," VARIABLES
        timezone := "auto" }
    let r := call_api (env params) 3
    match r.result with
    | some data =>
      match data.daily with
      | some block =>
        if data.truthy then (some (dailyToRows block city), r.attempts)
        else (none, r.attempts)
      | none => (none, r.attempts)
    | none => (none, r.attempts)

/-- Period key of a date for monthly resampling, ordered as pandas orders
month ends. -/
def monthKey (d : Date) : Nat := d.year * 100 + d.month

/-- Period key for quarterly resampling. -/
def quarterKey (d : Date) : Nat := d.year * 100 + (d.month + 2) / 3

/-- Period key for yearly resampling. -/
def yearKey (d : Date) : Nat := d.year * 100

/-- Days in a calendar month, leap years included. -/
def daysInMonth (y m : Nat) : Nat :=
  if m = 2 then (if y % 4 = 0 && (y % 100 ≠ 0 || y % 400 = 0) then 29 else 28)
  else if m = 4 || m = 6 || m = 9 || m = 11 then 30
  else 31

/-- The timestamp pandas gives a monthly bin: the month's last day. -/
def monthEnd (k : Nat) : Date := ⟨k / 100, k % 100, daysInMonth (k / 100) (k % 100)⟩

/-- The timestamp pandas gives a quarterly bin: the quarter's last day. -/
def quarterEnd (k : Nat) : Date :=
  ⟨k / 100, k % 100 * 3, daysInMonth (k / 100) (k % 100 * 3)⟩

/-- The timestamp pandas gives a yearly bin: December 31. -/
def yearEnd (k : Nat) : Date := ⟨k / 100, 12, 31⟩

/-- Insert a key into an ascending list, keeping it ascending. -/
def insertKey (x : Nat) : List Nat → List Nat
  | [] => [x]
  | y :: ys => if x ≤ y then x :: y :: ys else y :: insertKey x ys

/-- Sort period keys ascending, as `resample` orders its output bins. -/
def sortKeys (l : List Nat) : List Nat := l.foldr insertKey []

/-- Arithmetic mean of a list of rationals (`"mean"` reducer). -/
def meanQ (l : List ℚ) : ℚ := l.sum / (l.length : ℚ)

/-- Maximum of a list of rationals (`"max"` reducer); `0` on the empty list,
which never arises for the nonempty bins kept after `dropna`. -/
def maxQ : List ℚ → ℚ
  | [] => 0
  | x :: xs => xs.foldl max x

/-- The `"first"` reducer on the city column. -/
def firstCity : List WRow → String
  | [] => ""
  | r :: _ => r.city

/-- The `agg({...})` reducers applied to one resample bin `g` stamped with
the bin's period-end timestamp `t`: temperature by mean, precipitation by
sum, wind speed by max, city by first-seen. -/
def aggBin (g : List WRow) (t : Date) : WRow :=
  { time := t
    temperature_2m_mean := meanQ (g.map (fun r => r.temperature_2m_mean))
    precipitation_sum := (g.map (fun r => r.precipitation_sum)).sum
    wind_speed_10m_max := maxQ (g.map (fun r => r.wind_speed_10m_max))
    city := firstCity g }

/-- `resample(freq).agg({...}).dropna().reset_index()`: group the rows by
period key, keep the nonempty bins (the empty intermediate bins pandas
generates are dropped by `dropna`, since their mean and max are missing),
order bins by period ascending, and reduce each bin with `aggBin`. -/
def resampleAgg (df : List WRow) (key : Date → Nat) (pEnd : Nat → Date) :
    List WRow :=
  (sortKeys ((df.map (fun r => key r.time)).dedup)).map (fun k =>
    aggBin (df.filter (fun r => key r.time == k)) (pEnd k))

/-- `process_weather_data(df, resample_freq)` (lines 125-169): `"M"` resamples
monthly, `"Q"` quarterly, anything else yearly. -/
def process_weather_data (df : List WRow) (resample_freq : String) : List WRow :=
  if resample_freq = "M" then resampleAgg df monthKey monthEnd
  else if resample_freq = "Q" then resampleAgg df quarterKey quarterEnd
  else resampleAgg df yearKey yearEnd

/-- The data-preparation core of `plot_weather_evolution` (lines 174-206): for
each city with data, aggregate the series with the given `resample_freq` when
it has more than 365 rows, draw it as-is otherwise; cities with `None` data
are skipped.  Returns the per-city series actually drawn, in order. -/
def plot_weather_evolution (all_cities_data : List (String × Option (List WRow)))
    (resample_freq : String) : List (String × List WRow) :=
  match all_cities_data with
  | [] => []
  | (_, none) :: rest => plot_weather_evolution rest resample_freq
  | (name, some d) :: rest =>
    (name, if 365 < d.length then process_weather_data d resample_freq else d)
      :: plot_weather_evolution rest resample_freq

/-- One row of pipeline B's feature frame: the interpreted `user_id` key and
an opaque payload standing for the remaining columns. -/
structure FRow where
  user_id : Nat
  payload : Nat
deriving DecidableEq

/-- `df['user_id'].value_counts()` at one key: how many rows carry it. -/
def user_counts (df : List FRow) (u : Nat) : Nat :=
  df.countP (fun r => r.user_id == u)

/-- Membership in `valid_users`: the key's count meets the threshold 5. -/
def valid_user (df : List FRow) (u : Nat) : Bool :=
  decide (5 ≤ user_counts df u)

/-- `filtered_df = df[df['user_id'].isin(valid_users)]`
(filter_feature_frame.py, lines 11-17): keep, in input order, the rows whose
`user_id` occurs at least 5 times in the input. -/
def filtered_df (df : List FRow) : List FRow :=
  df.filter (fun r => valid_user df r.user_id)

/-- Environment answering every request with HTTP 429. -/
def env429 : Nat → Outcome Nat := fun _ => Outcome.resp 429 0

/-- Environment answering every request with HTTP 500. -/
def env500 : Nat → Outcome Nat := fun _ => Outcome.resp 500 0

/-- Environment answering every request with HTTP 200 and a truthy JSON
object that lacks the `"daily"` key. -/
def envBadJson : Params → Nat → Outcome Json :=
  fun _ _ => Outcome.resp 200 ⟨true, none⟩

/-- Environment answering every request with a network error. -/
def envNetErr : Params → Nat → Outcome Json := fun _ _ => Outcome.netErr

/-- A feature frame in which the single user owns all 5 rows. -/
def dfAll5 : List FRow := [⟨1, 0⟩, ⟨1, 1⟩, ⟨1, 2⟩, ⟨1, 3⟩, ⟨1, 4⟩]

/-- The first row of the synthetic January 2010 month. -/
def row31 : WRow := ⟨⟨2010, 1, 1⟩, 0, 1, 0, "Madrid"⟩

/-- A synthetic 31-day month of daily records (January 2010). -/
def df31 : List WRow :=
  (List.range 31).map (fun i => ⟨⟨2010, 1, i + 1⟩, (i : ℚ), 1, (i : ℚ), "Madrid"⟩)

/-- Two daily records in different years. -/
def dfTwoYears : List WRow :=
  [⟨⟨2010, 1, 1⟩, 1, 1, 1, "Madrid"⟩, ⟨⟨2011, 1, 1⟩, 2, 2, 2, "Madrid"⟩]

/-- A daily record in January 2010. -/
def rowJan : WRow := ⟨⟨2010, 1, 1⟩, 10, 1, 5, "Madrid"⟩

/-- A daily record in February 2010. -/
def rowFeb : WRow := ⟨⟨2010, 2, 1⟩, 20, 2, 7, "Madrid"⟩

/-- A 366-row series spanning two calendar months. -/
def dfLong : List WRow := List.replicate 365 rowJan ++ [rowFeb]

theorem callApiGo_retryable {α : Type} (env : Nat → Outcome α) (mr : Nat)
    (h : ∀ i, retryable (env i) = true) :
    ∀ fuel attempt, attempt + fuel = mr →
      (callApiGo env mr attempt fuel).result = none ∧
      (callApiGo env mr attempt fuel).attempts = fuel ∧
      fuel - 1 ≤ (callApiGo env mr attempt fuel).waits.length ∧
      (callApiGo env mr attempt fuel).waits.length ≤ fuel ∧
      ∀ k, k < (callApiGo env mr attempt fuel).waits.length →
        (callApiGo env mr attempt fuel).waits.getD k 0 = 2 ^ (attempt + k) := by
  intro fuel
  induction fuel with
  | zero =>
    intro attempt _
    refine ⟨rfl, rfl, Nat.le_refl _, Nat.le_refl _, ?_⟩
    intro k hk
    have hz : (callApiGo env mr attempt 0).waits.length = 0 := rfl
    omega
  | succ n ih =>
    intro attempt hinv
    have hr := h attempt
    cases henv : env attempt with
    | resp code body =>
      rw [henv] at hr
      have hc : code = 429 := by
        simpa [retryable] using hr
      subst hc
      obtain ⟨h1, h2, h3, h4, h5⟩ := ih (attempt + 1) (by omega)
      have he : callApiGo env mr attempt (n + 1) =
          ⟨(callApiGo env mr (attempt + 1) n).result,
           (callApiGo env mr (attempt + 1) n).attempts + 1,
           2 ^ attempt :: (callApiGo env mr (attempt + 1) n).waits⟩ := by
        simp [callApiGo, henv]
      have hres : (callApiGo env mr attempt (n + 1)).result =
          (callApiGo env mr (attempt + 1) n).result := by rw [he]
      have hatt : (callApiGo env mr attempt (n + 1)).attempts =
          (callApiGo env mr (attempt + 1) n).attempts + 1 := by rw [he]
      have hwaits : (callApiGo env mr attempt (n + 1)).waits =
          2 ^ attempt :: (callApiGo env mr (attempt + 1) n).waits := by rw [he]
      refine ⟨?_, ?_, ?_, ?_, ?_⟩
      · rw [hres]; exact h1
      · rw [hatt, h2]
      · rw [hwaits, List.length_cons]; omega
      · rw [hwaits, List.length_cons]; omega
      · intro k hk
        rw [hwaits] at hk ⊢
        rw [List.length_cons] at hk
        cases k with
        | zero => simp
        | succ m =>
          rw [List.getD_cons_succ, h5 m (by omega)]
          congr 1
          omega
    | netErr =>
      by_cases hguard : attempt < mr - 1
      · obtain ⟨h1, h2, h3, h4, h5⟩ := ih (attempt + 1) (by omega)
        have he : callApiGo env mr attempt (n + 1) =
            ⟨(callApiGo env mr (attempt + 1) n).result,
             (callApiGo env mr (attempt + 1) n).attempts + 1,
             2 ^ attempt :: (callApiGo env mr (attempt + 1) n).waits⟩ := by
          simp [callApiGo, henv, hguard]
        have hres : (callApiGo env mr attempt (n + 1)).result =
            (callApiGo env mr (attempt + 1) n).result := by rw [he]
        have hatt : (callApiGo env mr attempt (n + 1)).attempts =
            (callApiGo env mr (attempt + 1) n).attempts + 1 := by rw [he]
        have hwaits : (callApiGo env mr attempt (n + 1)).waits =
            2 ^ attempt :: (callApiGo env mr (attempt + 1) n).waits := by rw [he]
        refine ⟨?_, ?_, ?_, ?_, ?_⟩
        · rw [hres]; exact h1
        · rw [hatt, h2]
        · rw [hwaits, List.length_cons]; omega
        · rw [hwaits, List.length_cons]; omega
        · intro k hk
          rw [hwaits] at hk ⊢
          rw [List.length_cons] at hk
          cases k with
          | zero => simp
          | succ m =>
            rw [List.getD_cons_succ, h5 m (by omega)]
            congr 1
            omega
      · have hn : n = 0 := by omega
        subst hn
        have he : callApiGo env mr attempt (0 + 1) = ⟨none, 1, []⟩ := by
          simp [callApiGo, henv, hguard]
        rw [he]
        exact ⟨rfl, rfl, by simp, by simp, fun k hk => absurd hk (by simp)⟩

/-- Claim C1: on an environment of nothing but HTTP 429 responses and
network-level errors, `call_api` makes exactly `max_retries` attempts,
returns `none` (no exception is modelled: the loop falls through to
`return None`), and each sleep before the next attempt lasts
`2 ^ attempt` time units, so the wait durations double: 1, 2, 4, ... -/
theorem call_api_retry_backoff_exhaustion {α : Type} (env : Nat → Outcome α)
    (mr : Nat) (h : ∀ i, retryable (env i) = true) :
    (call_api env mr).result = none ∧
    (call_api env mr).attempts = mr ∧
    mr - 1 ≤ (call_api env mr).waits.length ∧
    (call_api env mr).waits.length ≤ mr ∧
    ∀ k, k < (call_api env mr).waits.length →
      (call_api env mr).waits.getD k 0 = 2 ^ k := by
  have hgo := callApiGo_retryable env mr h mr 0 (by omega)
  obtain ⟨h1, h2, h3, h4, h5⟩ := hgo
  refine ⟨h1, h2, h3, h4, fun k hk => ?_⟩
  have := h5 k hk
  rwa [Nat.zero_add] at this

theorem call_api_retry_backoff_exhaustion_witness :
    (∀ i, retryable (env429 i) = true) ∧
    ((call_api env429 3).result = none ∧
     (call_api env429 3).attempts = 3 ∧
     3 - 1 ≤ (call_api env429 3).waits.length ∧
     (call_api env429 3).waits.length ≤ 3 ∧
     ∀ k, k < (call_api env429 3).waits.length →
       (call_api env429 3).waits.getD k 0 = 2 ^ k) :=
  ⟨fun _ => rfl, call_api_retry_backoff_exhaustion env429 3 (fun _ => rfl)⟩

/-- Claim C4: on a response whose status is neither 200 nor 429, `call_api`
returns `None` after that single attempt, with no sleep and no further
request: one attempt, an empty wait list. -/
theorem call_api_hard_error_single_attempt {α : Type} (env : Nat → Outcome α)
    (mr code : Nat) (body : α) (h0 : env 0 = Outcome.resp code body)
    (h200 : code ≠ 200) (h429 : code ≠ 429) (hmr : 0 < mr) :
    call_api env mr = ⟨none, 1, []⟩ := by
  unfold call_api
  cases mr with
  | zero => exact absurd hmr (by omega)
  | succ n => simp [callApiGo, h0, h200, h429]

theorem call_api_hard_error_single_attempt_witness :
    env500 0 = Outcome.resp 500 0 ∧ (500 : Nat) ≠ 200 ∧ (500 : Nat) ≠ 429 ∧
    0 < 3 ∧ call_api env500 3 = ⟨none, 1, []⟩ :=
  ⟨rfl, by decide, by decide, by decide,
    call_api_hard_error_single_attempt env500 3 500 0 rfl (by decide) (by decide)
      (by decide)⟩

theorem user_counts_filter_of_valid (df0 : List FRow) (u : Nat)
    (hu : valid_user df0 u = true) :
    ∀ df : List FRow,
      user_counts (df.filter (fun r => valid_user df0 r.user_id)) u =
        user_counts df u := by
  intro df
  induction df with
  | nil => rfl
  | cons r t ih =>
    by_cases hru : r.user_id = u
    · have hpr : valid_user df0 r.user_id = true := by rw [hru]; exact hu
      simp only [user_counts, List.filter_cons, hpr, if_pos]
      simp only [List.countP_cons]
      simp only [user_counts] at ih
      rw [ih]
    · by_cases hpr : valid_user df0 r.user_id = true
      · simp only [user_counts, List.filter_cons, hpr, if_pos]
        simp only [List.countP_cons]
        simp only [user_counts] at ih
        rw [ih]
      · rw [List.filter_cons_of_neg (by simpa using hpr)]
        simp only [user_counts, List.countP_cons] at ih ⊢
        rw [ih]
        have hbeq : (r.user_id == u) = false := by simpa using hru
        simp [hbeq]

/-- Counterexample to claim C2 as stated: on an input whose single user owns
all 5 rows, the filter removes nothing, so its output is the whole input and
not a strict subset of it. -/
theorem filtered_df_not_strict_subset :
    filtered_df dfAll5 = dfAll5 ∧ dfAll5 ≠ [] := by
  constructor
  · decide
  · decide

/-- Claim C2 (amended): the filter's output is a subset of the input rows —
not necessarily strict — given as a sublist, so input order is preserved;
a row is kept exactly when its `user_id` occurs at least 5 times in the
input. -/
theorem filtered_df_subset_exact_ordered (df : List FRow) :
    List.Sublist (filtered_df df) df ∧
    ∀ r : FRow, r ∈ filtered_df df ↔ r ∈ df ∧ 5 ≤ user_counts df r.user_id := by
  constructor
  · exact List.filter_sublist df
  · intro r
    simp [filtered_df, List.mem_filter, valid_user]

/-- Claim C7: the frequency filter is idempotent — filtering an
already-filtered frame removes no further rows. -/
theorem filtered_df_idempotent (df : List FRow) :
    filtered_df (filtered_df df) = filtered_df df := by
  show (filtered_df df).filter (fun r => valid_user (filtered_df df) r.user_id) =
    filtered_df df
  apply List.filter_eq_self.mpr
  intro r hr
  have hmem := List.mem_filter.mp hr
  have hvalid : valid_user df r.user_id = true := hmem.2
  show valid_user (df.filter (fun x => valid_user df x.user_id)) r.user_id = true
  have hcnt := user_counts_filter_of_valid df r.user_id hvalid df
  simp only [valid_user] at hcnt hvalid ⊢
  rw [decide_eq_true_eq] at hvalid ⊢
  rw [hcnt]
  exact hvalid

/-- Claim C5: a city absent from the `COORDINATES` registry makes
`get_data_meteo_api` return `None` with zero HTTP requests issued. -/
theorem get_data_meteo_api_unknown_city (env : Params → Nat → Outcome Json)
    (city start_date end_date : String)
    (h : COORDINATES.lookup city = none) :
    get_data_meteo_api env city start_date end_date = (none, 0) := by
  unfold get_data_meteo_api
  rw [h]

theorem get_data_meteo_api_unknown_city_witness :
    COORDINATES.lookup "Paris" = none ∧
    get_data_meteo_api envNetErr "Paris" "2010-01-01" "2020-12-31" = (none, 0) :=
  ⟨by decide,
    get_data_meteo_api_unknown_city envNetErr "Paris" "2010-01-01" "2020-12-31"
      (by decide)⟩

/-- Claim C10: when `call_api` returns a value whose JSON payload is falsy or
lacks the `"daily"` key, `get_data_meteo_api` returns `None`, just as when
the API step fails. -/
theorem get_data_meteo_api_missing_daily_none (env : Params → Nat → Outcome Json)
    (city start_date end_date : String)
    (hbad : ∀ p j, (call_api (env p) 3).result = some j →
      j.truthy = false ∨ j.daily = none) :
    (get_data_meteo_api env city start_date end_date).1 = none := by
  unfold get_data_meteo_api
  cases hc : COORDINATES.lookup city with
  | none => rfl
  | some coords =>
    obtain ⟨lat, lon⟩ := coords
    cases hres : (call_api
        (env ⟨lat, lon, start_date, end_date,
          String.intercalate "," VARIABLES, "auto"⟩) 3).result with
    | none => simp [hres]
    | some j =>
      rcases hbad _ j hres with hbt | hbd
      · cases hd : j.daily with
        | none => simp [hres, hd]
        | some block => simp [hres, hd, hbt]
      · simp [hres, hbd]

theorem get_data_meteo_api_missing_daily_none_witness :
    (∀ p j, (call_api (envBadJson p) 3).result = some j →
      j.truthy = false ∨ j.daily = none) ∧
    (get_data_meteo_api envBadJson "Madrid" "2010-01-01" "2020-12-31").1 = none :=
  ⟨fun _ j h => Or.inr (by rw [← Option.some.inj h]),
    get_data_meteo_api_missing_daily_none envBadJson "Madrid" "2010-01-01"
      "2020-12-31" (fun _ j h => Or.inr (by rw [← Option.some.inj h]))⟩

theorem insertKey_length (x : Nat) : ∀ l : List Nat,
    (insertKey x l).length = l.length + 1 := by
  intro l
  induction l with
  | nil => rfl
  | cons y ys ih =>
    unfold insertKey
    by_cases hxy : x ≤ y
    · rw [if_pos hxy]
      rfl
    · rw [if_neg hxy]
      simp only [List.length_cons, ih]

theorem sortKeys_length : ∀ l : List Nat, (sortKeys l).length = l.length := by
  intro l
  induction l with
  | nil => rfl
  | cons a t ih =>
    show (insertKey a (sortKeys t)).length = t.length + 1
    rw [insertKey_length, ih]

theorem resampleAgg_length_le (df : List WRow) (key : Date → Nat)
    (pEnd : Nat → Date) : (resampleAgg df key pEnd).length ≤ df.length := by
  unfold resampleAgg
  rw [List.length_map, sortKeys_length]
  calc ((df.map fun r => key r.time).dedup).length
      ≤ (df.map fun r => key r.time).length := (List.dedup_sublist _).length_le
    _ = df.length := by simp

theorem process_weather_data_length_le (df : List WRow) (freq : String) :
    (process_weather_data df freq).length ≤ df.length := by
  unfold process_weather_data
  by_cases h1 : freq = "M"
  · rw [if_pos h1]
    exact resampleAgg_length_le df monthKey monthEnd
  · rw [if_neg h1]
    by_cases h2 : freq = "Q"
    · rw [if_pos h2]
      exact resampleAgg_length_le df quarterKey quarterEnd
    · rw [if_neg h2]
      exact resampleAgg_length_le df yearKey yearEnd

/-- Claim C6: aggregation never has more rows than its input; in particular
re-aggregating a monthly result to yearly granularity cannot grow it. -/
theorem process_weather_data_row_count (df : List WRow) (freq : String) :
    (process_weather_data df freq).length ≤ df.length ∧
    (process_weather_data (process_weather_data df "M") "Y").length ≤
      (process_weather_data df "M").length :=
  ⟨process_weather_data_length_le df freq,
    process_weather_data_length_le (process_weather_data df "M") "Y"⟩

/-- Claim C9: any `resample_freq` other than `"M"` and `"Q"` — `"W"`,
lowercase `"m"`, anything — silently lands in the `else` branch and
aggregates yearly, identical to passing `"Y"`. -/
theorem process_weather_data_default_yearly (df : List WRow) (freq : String)
    (hM : freq ≠ "M") (hQ : freq ≠ "Q") :
    process_weather_data df freq = process_weather_data df "Y" := by
  unfold process_weather_data
  rw [if_neg hM, if_neg hQ, if_neg (by decide : ¬(("Y" : String) = "M")),
    if_neg (by decide : ¬(("Y" : String) = "Q"))]

theorem process_weather_data_default_yearly_witness :
    ("W" : String) ≠ "M" ∧ ("W" : String) ≠ "Q" ∧
    process_weather_data dfTwoYears "W" = process_weather_data dfTwoYears "Y" :=
  ⟨by decide, by decide,
    process_weather_data_default_yearly dfTwoYears "W" (by decide) (by decide)⟩

theorem dedup_all_eq (k : Nat) : ∀ l : List Nat, l ≠ [] → (∀ x ∈ l, x = k) →
    l.dedup = [k] := by
  intro l
  induction l with
  | nil => intro h _; exact absurd rfl h
  | cons a t ih =>
    intro _ hall
    have ha : a = k := hall a (List.mem_cons_self a t)
    cases t with
    | nil =>
      rw [List.dedup_cons_of_not_mem (by simp), List.dedup_nil, ha]
    | cons b u =>
      have hb : b = k := hall b (by simp)
      have hmem : a ∈ b :: u := by
        rw [ha, ← hb]
        exact List.mem_cons_self b u
      rw [List.dedup_cons_of_mem hmem]
      exact ih (by simp) (fun x hx => hall x (List.mem_cons_of_mem a hx))

theorem le_foldl_max_init : ∀ (l : List ℚ) (a : ℚ), a ≤ l.foldl max a := by
  intro l
  induction l with
  | nil => intro a; exact le_refl a
  | cons b t ih =>
    intro a
    exact le_trans (le_max_left a b) (ih (max a b))

theorem le_foldl_max_of_mem : ∀ (l : List ℚ) (a x : ℚ), x ∈ l →
    x ≤ l.foldl max a := by
  intro l
  induction l with
  | nil => intro a x hx; cases hx
  | cons b t ih =>
    intro a x hx
    cases hx with
    | head => exact le_trans (le_max_right a b) (le_foldl_max_init t (max a b))
    | tail _ hxt => exact ih (max a b) x hxt

theorem foldl_max_mem : ∀ (l : List ℚ) (a : ℚ), l.foldl max a ∈ a :: l := by
  intro l
  induction l with
  | nil => intro a; exact List.mem_cons_self a []
  | cons b t ih =>
    intro a
    have h := ih (max a b)
    rw [List.mem_cons] at h
    rcases h with h | h
    · show List.foldl max (max a b) t ∈ a :: b :: t
      rw [h]
      rcases max_choice a b with hm | hm
      · rw [hm]
        exact List.mem_cons_self a (b :: t)
      · rw [hm]
        exact List.mem_cons_of_mem a (List.mem_cons_self b t)
    · show List.foldl max (max a b) t ∈ a :: b :: t
      exact List.mem_cons_of_mem a (List.mem_cons_of_mem b h)

theorem maxQ_mem : ∀ l : List ℚ, l ≠ [] → maxQ l ∈ l := by
  intro l hl
  cases l with
  | nil => exact absurd rfl hl
  | cons x xs => exact foldl_max_mem xs x

theorem le_maxQ : ∀ (l : List ℚ) (x : ℚ), x ∈ l → x ≤ maxQ l := by
  intro l x hx
  cases l with
  | nil => cases hx
  | cons a t =>
    cases hx with
    | head => exact le_foldl_max_init t x
    | tail _ hxt => exact le_foldl_max_of_mem t a x hxt

/-- Claim C3: aggregating the daily rows of a single calendar month (31 rows,
all with the same month key) to monthly granularity yields exactly one row:
its temperature is the arithmetic mean (the sum of the 31 values divided by
31), its precipitation the sum, its wind speed the maximum of the 31 values,
and its city label the first-seen city of the group. -/
theorem process_weather_data_single_month (df : List WRow) (r0 : WRow)
    (hhead : df.head? = some r0)
    (hkey : ∀ r ∈ df, monthKey r.time = monthKey r0.time)
    (hlen : df.length = 31) :
    ∃ out : WRow,
      process_weather_data df "M" = [out] ∧
      out.temperature_2m_mean =
        (df.map (fun r => r.temperature_2m_mean)).sum / 31 ∧
      out.precipitation_sum = (df.map (fun r => r.precipitation_sum)).sum ∧
      out.wind_speed_10m_max ∈ df.map (fun r => r.wind_speed_10m_max) ∧
      (∀ w ∈ df.map (fun r => r.wind_speed_10m_max),
        w ≤ out.wind_speed_10m_max) ∧
      out.city = r0.city := by
  have hne : df ≠ [] := by
    intro h
    rw [h] at hhead
    cases hhead
  have hdedup : (df.map (fun r => monthKey r.time)).dedup = [monthKey r0.time] := by
    apply dedup_all_eq
    · simpa using hne
    · intro x hx
      rcases List.mem_map.mp hx with ⟨r, hr, rfl⟩
      exact hkey r hr
  have hfilter : df.filter (fun r => monthKey r.time == monthKey r0.time) = df :=
    List.filter_eq_self.mpr (fun r hr => by simp [hkey r hr])
  refine ⟨aggBin df (monthEnd (monthKey r0.time)), ?_, ?_, rfl, ?_, ?_, ?_⟩
  · unfold process_weather_data
    rw [if_pos rfl]
    unfold resampleAgg
    rw [hdedup]
    have hsort : sortKeys [monthKey r0.time] = [monthKey r0.time] := rfl
    rw [hsort]
    simp only [List.map_cons, List.map_nil]
    rw [hfilter]
  · show meanQ (df.map (fun r => r.temperature_2m_mean)) = _
    unfold meanQ
    rw [List.length_map, hlen]
    norm_num
  · show maxQ (df.map (fun r => r.wind_speed_10m_max)) ∈ _
    apply maxQ_mem
    simpa using hne
  · intro w hw
    exact le_maxQ _ w hw
  · cases df with
    | nil => exact absurd rfl hne
    | cons a t =>
      have ha : a = r0 := Option.some.inj hhead
      show a.city = r0.city
      rw [ha]

theorem process_weather_data_single_month_witness :
    (df31.head? = some row31 ∧
     (∀ r ∈ df31, monthKey r.time = monthKey row31.time) ∧
     df31.length = 31) ∧
    (∃ out : WRow,
      process_weather_data df31 "M" = [out] ∧
      out.temperature_2m_mean =
        (df31.map (fun r => r.temperature_2m_mean)).sum / 31 ∧
      out.precipitation_sum = (df31.map (fun r => r.precipitation_sum)).sum ∧
      out.wind_speed_10m_max ∈ df31.map (fun r => r.wind_speed_10m_max) ∧
      (∀ w ∈ df31.map (fun r => r.wind_speed_10m_max),
        w ≤ out.wind_speed_10m_max) ∧
      out.city = row31.city) :=
  ⟨⟨rfl, by decide, rfl⟩,
    process_weather_data_single_month df31 row31 rfl (by decide) rfl⟩

set_option maxRecDepth 40000 in
/-- Counterexample to claim C8 as stated: with `resample_freq = "Y"`, the
366-row series is drawn after a yearly aggregation, not the monthly one the
claim promises regardless of the argument. -/
theorem plot_weather_evolution_not_always_monthly :
    plot_weather_evolution [("Madrid", some dfLong)] "Y" ≠
      [("Madrid", process_weather_data dfLong "M")] := by decide

/-- Claim C8 (amended): in `plot_weather_evolution`, a city series longer
than 365 rows is aggregated with `process_weather_data` at the granularity
of the `resample_freq` argument — monthly only when that argument is `"M"`,
its default — before its line is drawn; a series of at most 365 rows is
drawn unaggregated.  Cities whose data is `None` are skipped. -/
theorem plot_weather_evolution_aggregates_by_freq
    (all_cities_data : List (String × Option (List WRow)))
    (resample_freq name : String) (d : List WRow)
    (hmem : (name, some d) ∈ all_cities_data) :
    (365 < d.length →
      (name, process_weather_data d resample_freq) ∈
        plot_weather_evolution all_cities_data resample_freq) ∧
    (d.length ≤ 365 →
      (name, d) ∈ plot_weather_evolution all_cities_data resample_freq) := by
  induction all_cities_data with
  | nil => cases hmem
  | cons p rest ih =>
    obtain ⟨pname, pdata⟩ := p
    cases pdata with
    | none =>
      have hmem2 : (name, some d) ∈ rest := by
        rcases List.mem_cons.mp hmem with heq | h
        · simp at heq
        · exact h
      have hrec := ih hmem2
      simp only [plot_weather_evolution]
      exact hrec
    | some d2 =>
      rcases List.mem_cons.mp hmem with heq | h
      · have hn : name = pname := congrArg Prod.fst heq
        have hd : d = d2 := Option.some.inj (congrArg Prod.snd heq)
        subst hn
        subst hd
        constructor
        · intro hl
          simp only [plot_weather_evolution]
          rw [if_pos hl]
          exact List.mem_cons_self _ _
        · intro hl
          simp only [plot_weather_evolution]
          rw [if_neg (by omega)]
          exact List.mem_cons_self _ _
      · have hrec := ih h
        constructor
        · intro hl
          simp only [plot_weather_evolution]
          exact List.mem_cons_of_mem _ (hrec.1 hl)
        · intro hl
          simp only [plot_weather_evolution]
          exact List.mem_cons_of_mem _ (hrec.2 hl)

set_option maxRecDepth 40000 in
theorem plot_weather_evolution_aggregates_by_freq_witness :
    (("Madrid", some dfLong) ∈ [("Madrid", some dfLong)]) ∧
    365 < dfLong.length ∧
    ("Madrid", process_weather_data dfLong "Y") ∈
      plot_weather_evolution [("Madrid", some dfLong)] "Y" :=
  ⟨List.mem_singleton.mpr rfl, by decide,
    (plot_weather_evolution_aggregates_by_freq [("Madrid", some dfLong)] "Y"
      "Madrid" dfLong (List.mem_singleton.mpr rfl)).1 (by decide)⟩
